import Mathlib

/-!
Verification of the mock-resolution engine of the
insights-results-aggregator-mock service.

The Go package `storage` (storage/storage.go) is shallowly embedded below.
Go's `(value, error)` multiple-return idiom is embedded as a pair
`value × Option String` where the second component is `some errorMessage`
exactly when the Go function returns a non-nil error.  The package-level
map `reports` (populated once at startup) is passed explicitly as a
function `String → Option String`; Go map indexing `reports[k]` with its
`ok` flag is exactly application of that function.  The wall clock used by
`chooseReport` (`time.Now().Minute()`) is passed explicitly as a `minute`
parameter, and the file system read by `initStorage` is passed explicitly
as a function from file path to optional file contents.
-/

namespace Storage

/-- `const clusterNotFoundMessage` from storage/storage.go. -/
def clusterNotFoundMessage : String := "Cluster not found"

/-- `const noPermissionsForOrg` from storage/storage.go. -/
def noPermissionsForOrg : String :=
  "You have no permissions to get or change info about this organization"

/-- `const changingClustersPeriodInMinutes = 15` from storage/storage.go. -/
def changingClustersPeriodInMinutes : Nat := 15

/-- The catalog of cluster identifiers whose report files are loaded by
`initStorage` (the `clusters` slice literal inside `initStorage`). -/
def initClusters : List String :=
  [ "34c3ecc5-624a-49a5-bab8-4fdc5e51a266",
    "34c3ecc5-624a-49a5-bab8-4fdc5e51a267",
    "34c3ecc5-624a-49a5-bab8-4fdc5e51a268",
    "34c3ecc5-624a-49a5-bab8-4fdc5e51a269",
    "34c3ecc5-624a-49a5-bab8-4fdc5e51a26a",
    "34c3ecc5-624a-49a5-bab8-4fdc5e51a26b",
    "34c3ecc5-624a-49a5-bab8-4fdc5e51a26c",
    "34c3ecc5-624a-49a5-bab8-4fdc5e51a26d",
    "34c3ecc5-624a-49a5-bab8-4fdc5e51a26e",
    "34c3ecc5-624a-49a5-bab8-4fdc5e51a26f",
    "74ae54aa-6577-4e80-85e7-697cb646ff37",
    "a7467445-8d6a-43cc-b82c-7007664bdf69",
    "ee7d2bf4-8933-4a3a-8634-3328fe806e08",
    "eeeeeeee-eeee-eeee-eeee-000000000001",
    "00000001-624a-49a5-bab8-4fdc5e51a266",
    "00000001-624a-49a5-bab8-4fdc5e51a267",
    "00000001-624a-49a5-bab8-4fdc5e51a268",
    "00000001-624a-49a5-bab8-4fdc5e51a269",
    "00000001-624a-49a5-bab8-4fdc5e51a26a",
    "00000001-624a-49a5-bab8-4fdc5e51a26b",
    "00000001-624a-49a5-bab8-4fdc5e51a26c",
    "00000001-624a-49a5-bab8-4fdc5e51a26d",
    "00000001-624a-49a5-bab8-4fdc5e51a26e",
    "00000001-624a-49a5-bab8-4fdc5e51a26f",
    "00000001-6577-4e80-85e7-697cb646ff37",
    "00000001-8933-4a3a-8634-3328fe806e08",
    "00000001-8d6a-43cc-b82c-7007664bdf69",
    "00000001-eeee-eeee-eeee-000000000001",
    "00000002-624a-49a5-bab8-4fdc5e51a266",
    "00000002-6577-4e80-85e7-697cb646ff37",
    "00000002-8933-4a3a-8634-3328fe806e08",
    "00000003-8933-4a3a-8634-3328fe806e08",
    "00000003-8d6a-43cc-b82c-7007664bdf69",
    "00000003-eeee-eeee-eeee-000000000001" ]

/-- The file path built by `readReport`: `path + "/report_" + clusterName
+ ".json"`.  `filepath.Abs` is modelled as the identity on paths (it only
normalises the string and cannot fail for the paths used here). -/
def reportFilePath (path clusterName : String) : String :=
  path ++ "/report_" ++ clusterName ++ ".json"

/-- `readReport` from storage/storage.go.  The file system is the explicit
argument `fs`; `os.ReadFile` returning an error is modelled as `fs`
returning `none`, and the error message names the file that failed, as
`os.ReadFile`'s `*PathError` does. -/
def readReport (fs : String → Option String) (path clusterName : String) :
    String × Option String :=
  let absPath := reportFilePath path clusterName
  match fs absPath with
  | some report => (report, none)
  | none => ("", some ("open " ++ absPath ++ ": no such file or directory"))

/-- The loop body of `initStorage`: read each catalog cluster's report file
in order, returning on the first failure.  The first component is the list
of `(cluster, report)` entries inserted into the `reports` map, the second
the error.  Go returns from inside the loop on the first failing read, so
entries after a failure are never inserted. -/
def initStorageAux (fs : String → Option String) (path : String) :
    List String → List (String × String) × Option String
  | [] => ([], none)
  | c :: cs =>
    match readReport fs path c with
    | (_, some e) => ([], some e)
    | (report, none) =>
      let rest := initStorageAux fs path cs
      ((c, report) :: rest.1, rest.2)

/-- `initStorage` from storage/storage.go: loads every catalog cluster's
report, failing on the first unreadable file. -/
def initStorage (fs : String → Option String) (path : String) :
    List (String × String) × Option String :=
  initStorageAux fs path initClusters

/-- `New` from storage/storage.go: `New` calls `initStorage` and returns
`(&MemoryStorage{}, err)`; the `MemoryStorage` value carries no data, so
`New` is modelled by the result of `initStorage`. -/
def New (fs : String → Option String) (path : String) :
    List (String × String) × Option String :=
  initStorage fs path

/-- The list inside `clustersForOrganization11789772`. -/
def clustersForOrganization11789772 : List String :=
  [ "34c3ecc5-624a-49a5-bab8-4fdc5e51a266",
    "34c3ecc5-624a-49a5-bab8-4fdc5e51a267",
    "34c3ecc5-624a-49a5-bab8-4fdc5e51a268",
    "34c3ecc5-624a-49a5-bab8-4fdc5e51a269",
    "34c3ecc5-624a-49a5-bab8-4fdc5e51a26a",
    "34c3ecc5-624a-49a5-bab8-4fdc5e51a26b",
    "34c3ecc5-624a-49a5-bab8-4fdc5e51a26c",
    "34c3ecc5-624a-49a5-bab8-4fdc5e51a26d",
    "34c3ecc5-624a-49a5-bab8-4fdc5e51a26e",
    "34c3ecc5-624a-49a5-bab8-4fdc5e51a26f",
    "74ae54aa-6577-4e80-85e7-697cb646ff37",
    "a7467445-8d6a-43cc-b82c-7007664bdf69",
    "ee7d2bf4-8933-4a3a-8634-3328fe806e08",
    "eeeeeeee-eeee-eeee-eeee-000000000001" ]

/-- The cluster list appended for `case 1` of `ListOfClustersForOrg`
(inlined in the Go switch; named here so theorems can refer to it). -/
def clustersOrg1 : List String :=
  [ "00000001-624a-49a5-bab8-4fdc5e51a266",
    "00000001-624a-49a5-bab8-4fdc5e51a267",
    "00000001-624a-49a5-bab8-4fdc5e51a268",
    "00000001-624a-49a5-bab8-4fdc5e51a269",
    "00000001-624a-49a5-bab8-4fdc5e51a26a",
    "00000001-624a-49a5-bab8-4fdc5e51a26b",
    "00000001-624a-49a5-bab8-4fdc5e51a26c",
    "00000001-624a-49a5-bab8-4fdc5e51a26d",
    "00000001-624a-49a5-bab8-4fdc5e51a26e",
    "00000001-624a-49a5-bab8-4fdc5e51a26f",
    "00000001-6577-4e80-85e7-697cb646ff37",
    "00000001-8933-4a3a-8634-3328fe806e08",
    "00000001-8d6a-43cc-b82c-7007664bdf69",
    "00000001-eeee-eeee-eeee-000000000001" ]

/-- The cluster list appended for `case 2` of `ListOfClustersForOrg`. -/
def clustersOrg2 : List String :=
  [ "00000002-624a-49a5-bab8-4fdc5e51a266",
    "00000002-6577-4e80-85e7-697cb646ff37",
    "00000002-8933-4a3a-8634-3328fe806e08" ]

/-- The cluster list appended for `case 3` of `ListOfClustersForOrg`. -/
def clustersOrg3 : List String :=
  [ "00000003-8933-4a3a-8634-3328fe806e08",
    "00000003-8d6a-43cc-b82c-7007664bdf69",
    "00000003-eeee-eeee-eeee-000000000001" ]

/-- `ListOfClustersForOrg` from storage/storage.go: the Go `switch` on the
organization ID.  The denied organization 11940171 returns the empty slice
together with a non-nil error; every other branch (including the implicit
default, which leaves `clusters` empty) returns a nil error. -/
def ListOfClustersForOrg (orgID : Nat) : List String × Option String :=
  if orgID = 11940171 then
    ([], some noPermissionsForOrg)
  else if orgID = 11789772 then
    (clustersForOrganization11789772, none)
  else if orgID = 1 then
    (clustersOrg1, none)
  else if orgID = 2 then
    (clustersOrg2, none)
  else if orgID = 3 then
    (clustersOrg3, none)
  else
    ([], none)

/-- `getReportForCluster` from storage/storage.go: a plain lookup in the
`reports` map (`report, ok := reports[clusterName]`). -/
def getReportForCluster (reports : String → Option String)
    (clusterName : String) : Option String :=
  reports clusterName

/-- The `changingClusters` map literal inside `ReadReportForCluster`: each
rotating identifier maps to its ordered candidate sequence of backing
identifiers.  Only `lookup` is performed on it, so an association list is
a faithful embedding of the Go map. -/
def changingClusters : List (String × List String) :=
  [ ("cccccccc-cccc-cccc-cccc-000000000001",
     [ "34c3ecc5-624a-49a5-bab8-4fdc5e51a266",
       "74ae54aa-6577-4e80-85e7-697cb646ff37",
       "a7467445-8d6a-43cc-b82c-7007664bdf69" ]),
    ("cccccccc-cccc-cccc-cccc-000000000002",
     [ "74ae54aa-6577-4e80-85e7-697cb646ff37",
       "a7467445-8d6a-43cc-b82c-7007664bdf69",
       "ee7d2bf4-8933-4a3a-8634-3328fe806e08" ]),
    ("cccccccc-cccc-cccc-cccc-000000000003",
     [ "ee7d2bf4-8933-4a3a-8634-3328fe806e08",
       "ee7d2bf4-8933-4a3a-8634-3328fe806e08",
       "34c3ecc5-624a-49a5-bab8-4fdc5e51a266" ]),
    ("cccccccc-cccc-cccc-cccc-000000000004",
     [ "eeeeeeee-eeee-eeee-eeee-000000000001",
       "eeeeeeee-eeee-eeee-eeee-000000000001",
       "34c3ecc5-624a-49a5-bab8-4fdc5e51a266" ]) ]

/-- `chooseReport` from storage/storage.go, the Rotation Resolver:
`i := minute / changingClustersPeriodInMinutes; i %= len(variants);
return variants[i]`.  The minute of the hour (`time.Now().Minute()`) is
the explicit argument `minute`.  All call sites pass a non-empty
`variants`; `getD` with default `""` stands for Go's indexing (which would
panic only in the empty case Go never reaches). -/
def chooseReport (variants : List String) (minute : Nat) : String :=
  let i := minute / changingClustersPeriodInMinutes
  let i := i % variants.length
  variants.getD i ""

/-- `ReadReportForCluster` from storage/storage.go: rewrite a rotating
identifier to the backing identifier chosen by `chooseReport`, then look
the result up in the `reports` map. -/
def ReadReportForCluster (reports : String → Option String)
    (clusterName : String) (minute : Nat) : String × Option String :=
  let reportName :=
    match changingClusters.lookup clusterName with
    | some changingCluster => chooseReport changingCluster minute
    | none => clusterName
  match getReportForCluster reports reportName with
  | some report => (report, none)
  | none => ("", some clusterNotFoundMessage)

/-- `ReadReportForOrganizationAndCluster` from storage/storage.go: the Go
`switch` on the organization ID.  11940171 returns the permission error;
1, 2, 3 and 11789772 look the requested identifier up directly in the
`reports` map (returning it when found, otherwise falling through); every
other organization falls through to the `Cluster not found` error. -/
def ReadReportForOrganizationAndCluster (reports : String → Option String)
    (orgID : Nat) (clusterName : String) : String × Option String :=
  if orgID = 11940171 then
    ("", some noPermissionsForOrg)
  else if orgID = 1 ∨ orgID = 2 ∨ orgID = 3 ∨ orgID = 11789772 then
    match getReportForCluster reports clusterName with
    | some report => (report, none)
    | none => ("", some clusterNotFoundMessage)
  else
    ("", some clusterNotFoundMessage)

/-- The contents of the `reports` map after a successful `initStorage`:
one entry per catalog cluster identifier and nothing else, with the loaded
payloads abstracted as a function `payload` of the identifier. -/
def mkReports (payload : String → String) : String → Option String :=
  fun c => if c ∈ initClusters then some (payload c) else none

end Storage

namespace Server

open Storage

/-- Modelled from the spec: the classification outcome of the Synthetic
Failure Resolver (`classify(clusterIdentifier) -> Normal | Failing(code)
| Malformed`).  The HTTP handler implementing it is not among the source
files; only its REST tests (`checkReportForFailedCluster*`) are. -/
inductive ClusterClass where
  | Normal : ClusterClass
  | Failing : Nat → ClusterClass
  | Malformed : ClusterClass
deriving DecidableEq, Repr

/-- The fixed stem of the synthetic-failure naming convention: the tests
exercise identifiers of the form `"ffffffff-ffff-ffff-ffff-000000000XXX"`
where `XXX` encodes the intended HTTP status code. -/
def syntheticFailureStem : String := "ffffffff-ffff-ffff-ffff-000000000"

/-- The decimal value of one character, `none` for a non-digit. -/
def digitVal? (c : Char) : Option Nat :=
  if 48 ≤ c.toNat ∧ c.toNat ≤ 57 then some (c.toNat - 48) else none

/-- Parse a non-empty run of decimal digits as a natural number, `none`
when any character is not a digit (the behavior of Go's `strconv.Atoi` on
the non-negative inputs used here). -/
def parseNatDigits (cs : List Char) : Option Nat :=
  match cs with
  | [] => none
  | _ =>
    cs.foldl
      (fun acc c => acc.bind fun n => (digitVal? c).map fun d => n * 10 + d)
      (some 0)

/-- Modelled from the spec: the Synthetic Failure Resolver's `classify`.
An identifier matching the naming convention (the fixed stem followed by
exactly 3 characters) has its trailing 3 characters parsed as a decimal
integer; success yields `Failing(code)`, parse failure yields `Malformed`;
identifiers not matching the convention are `Normal`. -/
def classify (clusterName : String) : ClusterClass :=
  let cs := clusterName.data
  let stem := syntheticFailureStem.data
  if cs.take stem.length = stem ∧ cs.length = stem.length + 3 then
    match parseNatDigits (cs.drop stem.length) with
    | some code => ClusterClass.Failing code
    | none => ClusterClass.Malformed
  else
    ClusterClass.Normal

/-- Modelled from the spec: the HTTP status with which one per-cluster
report request (without organization) resolves.  A `Failing(code)`
identifier short-circuits with `code` before any Fixture Store access; a
`Malformed` identifier completes with status 200 (the deployed behavior
demanded by test `checkReportForFailedClusterNegativeTestCase`); a
`Normal` identifier goes through `ReadReportForCluster`, yielding 200 on
success and 404 on `Cluster not found`. -/
def resolveClusterStatus (reports : String → Option String)
    (clusterName : String) (minute : Nat) : Nat :=
  match classify clusterName with
  | ClusterClass.Failing code => code
  | ClusterClass.Malformed => 200
  | ClusterClass.Normal =>
    match ReadReportForCluster reports clusterName minute with
    | (_, none) => 200
    | (_, some _) => 404

/-- Modelled from the spec: the aggregated response of the Batch
Aggregator — `clusters` (found identifiers), `errors` (failed
identifiers) and `reports` (requested identifier → payload), each in
input order. -/
structure BatchResponse where
  clusters : List String
  errors : List String
  reports : List (String × String)
deriving DecidableEq, Repr

/-- Modelled from the spec: the Rotation Resolver step of batch
resolution — rewrite a rotating identifier to the backing identifier
chosen by `chooseReport`, leave every other identifier unchanged (this is
the identifier rewrite `ReadReportForCluster` performs before its store
lookup). -/
def rotate (clusterName : String) (minute : Nat) : String :=
  match changingClusters.lookup clusterName with
  | some variants => chooseReport variants minute
  | none => clusterName

/-- Modelled from the spec: per-identifier batch resolution, in input
order.  A `Failing` identifier goes to `errors`; otherwise the identifier
is rotated and looked up in the Fixture Store: a hit appends the
*requested* identifier to `clusters` and `(requested, payload)` to
`reports`, a miss appends the requested identifier to `errors`.  No
de-duplication is performed. -/
def resolveAll (store : String → Option String) (minute : Nat) :
    List String → BatchResponse
  | [] => ⟨[], [], []⟩
  | c :: cs =>
    let rest := resolveAll store minute cs
    match classify c with
    | ClusterClass.Failing _ => ⟨rest.clusters, c :: rest.errors, rest.reports⟩
    | _ =>
      match store (rotate c minute) with
      | some payload =>
        ⟨c :: rest.clusters, rest.errors, (c, payload) :: rest.reports⟩
      | none => ⟨rest.clusters, c :: rest.errors, rest.reports⟩

/-- Modelled from the spec: batch resolution under an organization.  If
Access Control denies the organization (the one denied ID 11940171) the
whole batch fails uniformly with the permission error; otherwise each
identifier is resolved independently by `resolveAll`. -/
def resolveAllForOrg (store : String → Option String) (minute : Nat)
    (orgID : Nat) (clusterNames : List String) :
    Except String BatchResponse :=
  if orgID = 11940171 then Except.error noPermissionsForOrg
  else Except.ok (resolveAll store minute clusterNames)

/-- Whether a batch identifier resolves successfully: not a synthetic
failure, and its rotated form is a key of the store. -/
def batchFound (store : String → Option String) (minute : Nat)
    (c : String) : Bool :=
  (match classify c with
   | ClusterClass.Failing _ => false
   | _ => (store (rotate c minute)).isSome)

end Server

open Storage Server

/-- No catalog cluster identifier is a rotating identifier: the keys of
`changingClusters` are disjoint from `initClusters`. -/
theorem initClusters_not_rotating :
    ∀ c ∈ initClusters, changingClusters.lookup c = none := by decide

/-- Characterization of `resolveAll` as an order-preserving partition of
the input by `batchFound`, with `reports` carrying the requested
identifier and its payload. -/
theorem resolveAll_partition (store : String → Option String) (minute : Nat)
    (cls : List String) :
    (resolveAll store minute cls).clusters = cls.filter (batchFound store minute)
    ∧ (resolveAll store minute cls).errors =
        cls.filter (fun c => !batchFound store minute c)
    ∧ (resolveAll store minute cls).reports =
        cls.filterMap (fun c =>
          if batchFound store minute c then
            (store (rotate c minute)).map (fun p => (c, p))
          else none) := by
  induction cls with
  | nil => exact ⟨rfl, rfl, rfl⟩
  | cons c cs ih =>
    obtain ⟨ih1, ih2, ih3⟩ := ih
    cases hcl : classify c with
    | Failing code =>
      simp [resolveAll, batchFound, hcl, ih1, ih2, ih3]
    | Normal =>
      cases hst : store (rotate c minute) with
      | none => simp [resolveAll, batchFound, hcl, hst, ih1, ih2, ih3]
      | some payload => simp [resolveAll, batchFound, hcl, hst, ih1, ih2, ih3]
    | Malformed =>
      cases hst : store (rotate c minute) with
      | none => simp [resolveAll, batchFound, hcl, hst, ih1, ih2, ih3]
      | some payload => simp [resolveAll, batchFound, hcl, hst, ih1, ih2, ih3]

/-- On success, `initStorageAux` returns a nil error and an entry for
every listed cluster holding exactly the contents of its report file. -/
theorem initStorageAux_ok (fs : String → Option String) (path : String)
    (l : List String) (h : ∀ c ∈ l, (fs (reportFilePath path c)).isSome) :
    (initStorageAux fs path l).2 = none
    ∧ ∀ c ∈ l, ∃ r, fs (reportFilePath path c) = some r
        ∧ (initStorageAux fs path l).1.lookup c = some r := by
  induction l with
  | nil => exact ⟨rfl, by simp⟩
  | cons c0 cs ih =>
    obtain ⟨r0, hr0⟩ :=
      Option.isSome_iff_exists.mp (h c0 (List.mem_cons_self c0 cs))
    have hrest := ih (fun c hc => h c (List.mem_cons_of_mem c0 hc))
    constructor
    · simp [initStorageAux, readReport, hr0, hrest.1]
    · intro c hc
      rcases List.mem_cons.mp hc with rfl | hc'
      · exact ⟨r0, hr0, by simp [initStorageAux, readReport, hr0]⟩
      · obtain ⟨r, hr, hl⟩ := hrest.2 c hc'
        by_cases hceq : c = c0
        · subst hceq
          exact ⟨r0, hr0, by simp [initStorageAux, readReport, hr0]⟩
        · refine ⟨r, hr, ?_⟩
          have hbeq : (c == c0) = false := beq_eq_false_iff_ne.mpr hceq
          simpa [initStorageAux, readReport, hr0, List.lookup, hbeq] using hl

/-- When some listed cluster's report file is unreadable, `initStorageAux`
returns a non-nil error naming an unreadable file of the list (the first
one, whose read aborted the loop). -/
theorem initStorageAux_err (fs : String → Option String) (path : String)
    (l : List String) (c : String) (hc : c ∈ l)
    (hf : fs (reportFilePath path c) = none) :
    ∃ c', c' ∈ l ∧ fs (reportFilePath path c') = none
      ∧ (initStorageAux fs path l).2 =
          some ("open " ++ reportFilePath path c' ++
            ": no such file or directory") := by
  induction l with
  | nil => cases hc
  | cons c0 cs ih =>
    cases hfc0 : fs (reportFilePath path c0) with
    | none =>
      exact ⟨c0, List.mem_cons_self c0 cs, hfc0,
        by simp [initStorageAux, readReport, hfc0]⟩
    | some r0 =>
      have hc' : c ∈ cs := by
        rcases List.mem_cons.mp hc with rfl | h'
        · rw [hfc0] at hf; cases hf
        · exact h'
      obtain ⟨c', hmem, hnone, herr⟩ := ih hc'
      exact ⟨c', List.mem_cons_of_mem c0 hmem, hnone,
        by simp [initStorageAux, readReport, hfc0, herr]⟩

/-- C1: for every rotating cluster identifier mapped to a non-empty
candidate sequence of length N and every minute of the hour, the Rotation
Resolver `chooseReport` returns the candidate at index
`(minute / 15) % N`; for any candidate sequence of length 4, minutes 0
and 14 select index 0, minute 15 selects index 1, minute 44 selects
index 2 and minute 59 selects index 3; and `ReadReportForCluster` on a
rotating identifier returns the stored report of the backing identifier
so selected. -/
theorem chooseReport_rotation :
    (∀ (variants : List String) (minute : Nat) (h : variants ≠ []),
      chooseReport variants minute =
        variants.get ⟨(minute / 15) % variants.length,
          Nat.mod_lt _ (List.length_pos.mpr h)⟩)
    ∧ (∀ a b c d : String,
        chooseReport [a, b, c, d] 0 = a ∧ chooseReport [a, b, c, d] 14 = a ∧
        chooseReport [a, b, c, d] 15 = b ∧ chooseReport [a, b, c, d] 44 = c ∧
        chooseReport [a, b, c, d] 59 = d)
    ∧ (∀ (reports : String → Option String) (cl : String)
        (variants : List String) (minute : Nat) (r : String),
        changingClusters.lookup cl = some variants →
        reports (chooseReport variants minute) = some r →
        ReadReportForCluster reports cl minute = (r, none)) := by
  refine ⟨?_, ?_, ?_⟩
  · intro variants minute h
    have hlt : (minute / 15) % variants.length < variants.length :=
      Nat.mod_lt _ (List.length_pos.mpr h)
    simp only [chooseReport, changingClustersPeriodInMinutes,
      List.get_eq_getElem]
    exact List.getD_eq_getElem variants "" hlt
  · intro a b c d
    exact ⟨rfl, rfl, rfl, rfl, rfl⟩
  · intro reports cl variants minute r hc hr
    simp [ReadReportForCluster, hc, getReportForCluster, hr]

/-- Witness for C1: minute 44 over a 4-candidate sequence selects index
2, and the rotating identifier ...001 at minute 16 resolves to the stored
report of its second backing identifier. -/
theorem chooseReport_rotation_witness :
    chooseReport ["a", "b", "c", "d"] 44 = "c"
    ∧ ReadReportForCluster (mkReports id)
        "cccccccc-cccc-cccc-cccc-000000000001" 16 =
        ("74ae54aa-6577-4e80-85e7-697cb646ff37", none) := by
  refine ⟨(chooseReport_rotation.2.1 "a" "b" "c" "d").2.2.2.1, ?_⟩
  exact chooseReport_rotation.2.2 (mkReports id)
    "cccccccc-cccc-cccc-cccc-000000000001"
    [ "34c3ecc5-624a-49a5-bab8-4fdc5e51a266",
      "74ae54aa-6577-4e80-85e7-697cb646ff37",
      "a7467445-8d6a-43cc-b82c-7007664bdf69" ] 16
    "74ae54aa-6577-4e80-85e7-697cb646ff37" (by decide) (by decide)

/-- C2: organization 11940171 is denied: `ListOfClustersForOrg` and
`ReadReportForOrganizationAndCluster` both return the Unauthorized error
with the fixed permission message and never a cluster list or payload,
regardless of the cluster identifier, while every other catalog
organization (1, 2, 3, 11789772) lists clusters without error. -/
theorem denied_organization_unauthorized (reports : String → Option String)
    (cl : String) :
    ListOfClustersForOrg 11940171 = ([], some noPermissionsForOrg)
    ∧ ReadReportForOrganizationAndCluster reports 11940171 cl =
        ("", some noPermissionsForOrg)
    ∧ noPermissionsForOrg =
        "You have no permissions to get or change info about this organization"
    ∧ (∀ org ∈ [1, 2, 3, 11789772], (ListOfClustersForOrg org).2 = none) := by
  refine ⟨rfl, rfl, rfl, ?_⟩
  intro org horg
  fin_cases horg <;> rfl

/-- Witness for C2: the denied organization cannot fetch a report even
for a catalog cluster whose payload exists, and organization 1 lists
without error. -/
theorem denied_organization_unauthorized_witness :
    ReadReportForOrganizationAndCluster (mkReports id) 11940171
        "34c3ecc5-624a-49a5-bab8-4fdc5e51a266" =
        ("", some noPermissionsForOrg)
    ∧ (ListOfClustersForOrg 1).2 = none :=
  ⟨(denied_organization_unauthorized (mkReports id)
      "34c3ecc5-624a-49a5-bab8-4fdc5e51a266").2.1,
   (denied_organization_unauthorized (mkReports id)
      "34c3ecc5-624a-49a5-bab8-4fdc5e51a266").2.2.2 1 (by decide)⟩

/-- C3: for every organization other than 11940171 the cluster listing
never errors; the catalog organizations 1, 2, 3 and 11789772 get exactly
their fixed ordered lists, and every organization outside the catalog
gets the empty list with no error. -/
theorem permitted_org_cluster_lists (orgID : Nat) (h : orgID ≠ 11940171) :
    (ListOfClustersForOrg orgID).2 = none
    ∧ ListOfClustersForOrg 1 = (clustersOrg1, none)
    ∧ ListOfClustersForOrg 2 = (clustersOrg2, none)
    ∧ ListOfClustersForOrg 3 = (clustersOrg3, none)
    ∧ ListOfClustersForOrg 11789772 = (clustersForOrganization11789772, none)
    ∧ (orgID ∉ [1, 2, 3, 11789772, 11940171] →
        ListOfClustersForOrg orgID = ([], none)) := by
  refine ⟨?_, rfl, rfl, rfl, rfl, ?_⟩
  · simp only [ListOfClustersForOrg, if_neg h]
    split_ifs <;> rfl
  · intro hout
    simp only [List.mem_cons, List.not_mem_nil, or_false] at hout
    push_neg at hout
    obtain ⟨h1, h2, h3, h4, h5⟩ := hout
    simp [ListOfClustersForOrg, h1, h2, h3, h4, h5]

/-- Witness for C3: organization 42 is outside the catalog and gets the
empty list with no error. -/
theorem permitted_org_cluster_lists_witness :
    (ListOfClustersForOrg 42).2 = none
    ∧ ListOfClustersForOrg 42 = ([], none) :=
  ⟨(permitted_org_cluster_lists 42 (by decide)).1,
   (permitted_org_cluster_lists 42 (by decide)).2.2.2.2.2 (by decide)⟩

/-- C4: a cluster identifier matching the synthetic-failure naming
convention with a 3-digit decimal suffix short-circuits per-cluster
resolution with that status code without consulting the Fixture Store
(the status is the same for every store and every minute); suffixes
"200", "400" and "500" resolve to statuses 200, 400 and 500. -/
theorem synthetic_failure_short_circuit (reports : String → Option String)
    (minute : Nat) :
    (∀ cl code, classify cl = ClusterClass.Failing code →
        resolveClusterStatus reports cl minute = code)
    ∧ classify "ffffffff-ffff-ffff-ffff-000000000200" = ClusterClass.Failing 200
    ∧ classify "ffffffff-ffff-ffff-ffff-000000000400" = ClusterClass.Failing 400
    ∧ classify "ffffffff-ffff-ffff-ffff-000000000500" = ClusterClass.Failing 500
    ∧ resolveClusterStatus reports "ffffffff-ffff-ffff-ffff-000000000200" minute = 200
    ∧ resolveClusterStatus reports "ffffffff-ffff-ffff-ffff-000000000400" minute = 400
    ∧ resolveClusterStatus reports "ffffffff-ffff-ffff-ffff-000000000500" minute = 500 := by
  refine ⟨?_, by decide, by decide, by decide, rfl, rfl, rfl⟩
  intro cl code hcl
  simp [resolveClusterStatus, hcl]

/-- Witness for C4: the 400-suffixed identifier short-circuits to status
400 over the catalog store. -/
theorem synthetic_failure_short_circuit_witness :
    resolveClusterStatus (mkReports id)
      "ffffffff-ffff-ffff-ffff-000000000400" 7 = 400 :=
  (synthetic_failure_short_circuit (mkReports id) 7).1
    "ffffffff-ffff-ffff-ffff-000000000400" 400 (by decide)

/-- C5: every identifier matching the synthetic-failure naming pattern
(the fixed stem followed by exactly 3 characters) whose trailing 3
characters do not parse as a decimal integer classifies as Malformed, and
resolution still completes, answering with status 200 for every store and
every minute; in particular the test's identifier with suffix "fff". -/
theorem malformed_suffix_completes (reports : String → Option String)
    (minute : Nat) :
    (∀ cl : String,
      cl.data.take syntheticFailureStem.data.length =
        syntheticFailureStem.data →
      cl.data.length = syntheticFailureStem.data.length + 3 →
      parseNatDigits (cl.data.drop syntheticFailureStem.data.length) = none →
      classify cl = ClusterClass.Malformed
      ∧ resolveClusterStatus reports cl minute = 200)
    ∧ classify "ffffffff-ffff-ffff-ffff-000000000fff" = ClusterClass.Malformed
    ∧ resolveClusterStatus reports
        "ffffffff-ffff-ffff-ffff-000000000fff" minute = 200 := by
  refine ⟨?_, by decide, rfl⟩
  intro cl h1 h2 h3
  have h1' : List.take syntheticFailureStem.length cl.data =
      syntheticFailureStem.data := h1
  have h3' : parseNatDigits
      (List.drop syntheticFailureStem.length cl.data) = none := h3
  have hcl : classify cl = ClusterClass.Malformed := by
    simp [classify, h1', h2, h3']
  exact ⟨hcl, by simp [resolveClusterStatus, hcl]⟩

/-- Witness for C5: the pattern-matching identifier with non-decimal
suffix "ffa" classifies as Malformed and resolves with status 200 over
the catalog store. -/
theorem malformed_suffix_completes_witness :
    classify "ffffffff-ffff-ffff-ffff-000000000ffa" = ClusterClass.Malformed
    ∧ resolveClusterStatus (mkReports id)
        "ffffffff-ffff-ffff-ffff-000000000ffa" 3 = 200 :=
  (malformed_suffix_completes (mkReports id) 3).1
    "ffffffff-ffff-ffff-ffff-000000000ffa"
    (by decide) (by decide) (by decide)

/-- C6: over a permitted organization, batch resolution partitions the
input identifiers in input order with no de-duplication: identifiers
whose (rotated) report is in the store go to `clusters` and, keyed by the
requested identifier, to `reports`; absent identifiers go to `errors`;
and a batch of exactly the one unknown identifier
bbbbbbbb-bbbb-bbbb-bbbb-cccccccccccc yields 0 found entries and 1 error
entry containing it. -/
theorem batch_resolution_partition (store : String → Option String)
    (minute orgID : Nat) (cls : List String) (h : orgID ≠ 11940171) :
    (∃ resp, resolveAllForOrg store minute orgID cls = Except.ok resp
      ∧ resp.clusters = cls.filter (batchFound store minute)
      ∧ resp.errors = cls.filter (fun c => !batchFound store minute c)
      ∧ resp.reports = cls.filterMap (fun c =>
          if batchFound store minute c then
            (store (rotate c minute)).map (fun p => (c, p))
          else none))
    ∧ (∀ payload : String → String,
        resolveAllForOrg (mkReports payload) minute orgID
            ["bbbbbbbb-bbbb-bbbb-bbbb-cccccccccccc"] =
          Except.ok ⟨[], ["bbbbbbbb-bbbb-bbbb-bbbb-cccccccccccc"], []⟩) := by
  constructor
  · exact ⟨resolveAll store minute cls, by simp [resolveAllForOrg, h],
      (resolveAll_partition store minute cls).1,
      (resolveAll_partition store minute cls).2.1,
      (resolveAll_partition store minute cls).2.2⟩
  · intro payload
    have h1 : classify "bbbbbbbb-bbbb-bbbb-bbbb-cccccccccccc" =
        ClusterClass.Normal := by decide
    have h2 : changingClusters.lookup "bbbbbbbb-bbbb-bbbb-bbbb-cccccccccccc" =
        none := by decide
    have h3 : "bbbbbbbb-bbbb-bbbb-bbbb-cccccccccccc" ∉ initClusters := by decide
    simp [resolveAllForOrg, h, resolveAll, rotate, h1, h2, mkReports, h3]

/-- Witness for C6: the singleton unknown-identifier batch under
organization 1 yields no found entries and that one error entry. -/
theorem batch_resolution_partition_witness :
    resolveAllForOrg (mkReports id) 0 1
        ["bbbbbbbb-bbbb-bbbb-bbbb-cccccccccccc"] =
      Except.ok ⟨[], ["bbbbbbbb-bbbb-bbbb-bbbb-cccccccccccc"], []⟩ :=
  (batch_resolution_partition (mkReports id) 0 1
    ["bbbbbbbb-bbbb-bbbb-bbbb-cccccccccccc"] (by decide)).2 id

/-- C7 counterexample: over the store of a successful initialization
(payloads abstracted as the identity function on identifiers), the
rotating identifier ...001 requested under the permitted organization
11789772 yields the Cluster-not-found error, while the same identifier
requested without an organization yields the rotated backing report —
so the organization-scoped fetch does not route the identifier through
the Rotation Resolver. -/
theorem org_scoped_rotation_counterexample :
    ReadReportForOrganizationAndCluster (mkReports id) 11789772
        "cccccccc-cccc-cccc-cccc-000000000001" =
        ("", some clusterNotFoundMessage)
    ∧ ReadReportForCluster (mkReports id)
        "cccccccc-cccc-cccc-cccc-000000000001" 0 =
        ("34c3ecc5-624a-49a5-bab8-4fdc5e51a266", none)
    ∧ ("", some clusterNotFoundMessage) ≠
        (("34c3ecc5-624a-49a5-bab8-4fdc5e51a266" : String),
          (none : Option String)) :=
  ⟨by decide, by decide, by decide⟩

/-- C7 amended: `ReadReportForCluster` routes a rotating identifier
through the Rotation Resolver, but `ReadReportForOrganizationAndCluster`
does not: under a permitted organization it looks the requested
identifier up directly in the Fixture Store, so every rotating identifier
(none of which is a store key) yields the Cluster-not-found error there. -/
theorem org_scoped_fetch_skips_rotation (reports : String → Option String)
    (orgID : Nat) (cl : String)
    (hperm : orgID = 1 ∨ orgID = 2 ∨ orgID = 3 ∨ orgID = 11789772) :
    ReadReportForOrganizationAndCluster reports orgID cl =
      (match getReportForCluster reports cl with
       | some report => (report, none)
       | none => ("", some clusterNotFoundMessage))
    ∧ (∀ payload : String → String, ∀ p ∈ changingClusters,
        ReadReportForOrganizationAndCluster (mkReports payload) orgID p.1 =
          ("", some clusterNotFoundMessage)) := by
  constructor
  · rcases hperm with h | h | h | h <;> subst h <;> rfl
  · intro payload p hp
    have hnone : mkReports payload p.1 = none := by
      simp only [changingClusters, List.mem_cons, List.not_mem_nil,
        or_false] at hp
      rcases hp with rfl | rfl | rfl | rfl <;> exact if_neg (by decide)
    rcases hperm with h | h | h | h <;> subst h <;>
      simp [ReadReportForOrganizationAndCluster, getReportForCluster, hnone]

/-- Witness for C7's amended statement: under organization 11789772 the
rotating identifier ...002 yields Cluster not found, and a direct lookup
shape holds for organization 1. -/
theorem org_scoped_fetch_skips_rotation_witness :
    ReadReportForOrganizationAndCluster (fun _ => none) 1 "x" =
      ("", some clusterNotFoundMessage)
    ∧ ReadReportForOrganizationAndCluster (mkReports id) 11789772
        "cccccccc-cccc-cccc-cccc-000000000002" =
        ("", some clusterNotFoundMessage) := by
  constructor
  · exact (org_scoped_fetch_skips_rotation (fun _ => none) 1 "x"
      (Or.inl rfl)).1
  · exact (org_scoped_fetch_skips_rotation (mkReports id) 11789772 "x"
      (Or.inr (Or.inr (Or.inr rfl)))).2 id
      ("cccccccc-cccc-cccc-cccc-000000000002",
        [ "74ae54aa-6577-4e80-85e7-697cb646ff37",
          "a7467445-8d6a-43cc-b82c-7007664bdf69",
          "ee7d2bf4-8933-4a3a-8634-3328fe806e08" ]) (by decide)

/-- C8: initialization is fail-fast.  When every catalog report file is
readable, `initStorage` returns no error and an entry for every catalog
cluster holding exactly its file's contents; when any catalog report file
is unreadable, `initStorage` returns an error naming an unreadable
catalog file, and `New` propagates exactly that error. -/
theorem initStorage_fail_fast (fs : String → Option String) (path : String) :
    ((∀ c ∈ initClusters, (fs (reportFilePath path c)).isSome) →
      (initStorage fs path).2 = none
      ∧ ∀ c ∈ initClusters, ∃ r, fs (reportFilePath path c) = some r
          ∧ (initStorage fs path).1.lookup c = some r)
    ∧ (∀ c ∈ initClusters, fs (reportFilePath path c) = none →
      ∃ c', c' ∈ initClusters ∧ fs (reportFilePath path c') = none
        ∧ (initStorage fs path).2 =
            some ("open " ++ reportFilePath path c' ++
              ": no such file or directory")
        ∧ (New fs path).2 = (initStorage fs path).2) := by
  constructor
  · intro h
    exact initStorageAux_ok fs path initClusters h
  · intro c hc hf
    obtain ⟨c', hmem, hnone, herr⟩ :=
      initStorageAux_err fs path initClusters c hc hf
    exact ⟨c', hmem, hnone, herr, rfl⟩

/-- Witness for C8: with a total file system every catalog payload loads
and no error is returned; with an empty file system initialization fails
with an error naming an unreadable catalog file. -/
theorem initStorage_fail_fast_witness :
    (initStorage (fun _ => some "R") "p").2 = none
    ∧ ∃ c', c' ∈ initClusters
        ∧ (fun _ => (none : Option String)) (reportFilePath "p" c') = none
        ∧ (initStorage (fun _ => none) "p").2 =
            some ("open " ++ reportFilePath "p" c' ++
              ": no such file or directory")
        ∧ (New (fun _ => none) "p").2 = (initStorage (fun _ => none) "p").2 :=
  ⟨((initStorage_fail_fast (fun _ => some "R") "p").1
      (fun _ _ => rfl)).1,
   (initStorage_fail_fast (fun _ => none) "p").2
     "34c3ecc5-624a-49a5-bab8-4fdc5e51a266" (by decide) rfl⟩

/-- C9: over the store of a successful initialization, an identifier that
is neither rotating nor a catalog store key yields the Cluster-not-found
error from `ReadReportForCluster` and (under a permitted catalog
organization) from `ReadReportForOrganizationAndCluster`; an identifier
that is a store key gets its stored payload back verbatim with no error
from both. -/
theorem cluster_lookup_not_found_or_verbatim (payload : String → String)
    (cl : String) (orgID : Nat) (minute : Nat) :
    (changingClusters.lookup cl = none → cl ∉ initClusters →
      ReadReportForCluster (mkReports payload) cl minute =
        ("", some clusterNotFoundMessage)
      ∧ ((orgID = 1 ∨ orgID = 2 ∨ orgID = 3 ∨ orgID = 11789772) →
          ReadReportForOrganizationAndCluster (mkReports payload) orgID cl =
            ("", some clusterNotFoundMessage)))
    ∧ (cl ∈ initClusters →
      ReadReportForCluster (mkReports payload) cl minute = (payload cl, none)
      ∧ ((orgID = 1 ∨ orgID = 2 ∨ orgID = 3 ∨ orgID = 11789772) →
          ReadReportForOrganizationAndCluster (mkReports payload) orgID cl =
            (payload cl, none))) := by
  constructor
  · intro hrot hmem
    have hnone : mkReports payload cl = none := by
      simp [mkReports, hmem]
    constructor
    · simp [ReadReportForCluster, hrot, getReportForCluster, hnone]
    · intro hperm
      rcases hperm with h | h | h | h <;> subst h <;>
        simp [ReadReportForOrganizationAndCluster, getReportForCluster, hnone]
  · intro hmem
    have hrot := initClusters_not_rotating cl hmem
    have hsome : mkReports payload cl = some (payload cl) := by
      simp [mkReports, hmem]
    constructor
    · simp [ReadReportForCluster, hrot, getReportForCluster, hsome]
    · intro hperm
      rcases hperm with h | h | h | h <;> subst h <;>
        simp [ReadReportForOrganizationAndCluster, getReportForCluster, hsome]

/-- Witness for C9: the unknown identifier zzz yields Cluster not found,
and catalog identifier 34c3ecc5-...a266 gets its stored payload back
verbatim. -/
theorem cluster_lookup_not_found_or_verbatim_witness :
    ReadReportForCluster (mkReports id) "zzz" 0 =
      ("", some clusterNotFoundMessage)
    ∧ ReadReportForCluster (mkReports id)
        "34c3ecc5-624a-49a5-bab8-4fdc5e51a266" 0 =
        ("34c3ecc5-624a-49a5-bab8-4fdc5e51a266", none) :=
  ⟨((cluster_lookup_not_found_or_verbatim id "zzz" 1 0).1
      (by decide) (by decide)).1,
   ((cluster_lookup_not_found_or_verbatim id
      "34c3ecc5-624a-49a5-bab8-4fdc5e51a266" 1 0).2 (by decide)).1⟩

/-- C10: every organization outside the catalog {1, 2, 3, 11789772,
11940171} gets the Cluster-not-found error from
`ReadReportForOrganizationAndCluster` for every cluster identifier —
even one whose report the store holds. -/
theorem unknown_org_cluster_not_found (reports : String → Option String)
    (orgID : Nat) (cl : String)
    (h : orgID ∉ [1, 2, 3, 11789772, 11940171]) :
    ReadReportForOrganizationAndCluster reports orgID cl =
      ("", some clusterNotFoundMessage) := by
  simp only [List.mem_cons, List.not_mem_nil, or_false] at h
  push_neg at h
  obtain ⟨h1, h2, h3, h4, h5⟩ := h
  simp [ReadReportForOrganizationAndCluster, h1, h2, h3, h4, h5]

/-- Witness for C10: the out-of-catalog organization 1234 cannot fetch
the report of catalog cluster 34c3ecc5-...a266 even though the store
holds it. -/
theorem unknown_org_cluster_not_found_witness :
    ReadReportForOrganizationAndCluster (mkReports id) 1234
        "34c3ecc5-624a-49a5-bab8-4fdc5e51a266" =
      ("", some clusterNotFoundMessage) :=
  unknown_org_cluster_not_found (mkReports id) 1234
    "34c3ecc5-624a-49a5-bab8-4fdc5e51a266" (by decide)
